import Mathlib

/-!
# Verification of the STT streaming session subsystem (ela_mvp)

Shallow embedding, in Lean 4, of the streaming-transcription session
subsystem of the repository:

* `src/stt_service/orquestrador_envio.py` — the dispatch orchestrator
  (`OrquestradorEnvioGlossa`): the `deve_enviar` filter, the
  `enviar_para_glossa` dispatch with its exception-handler chain, and
  `obter_estatisticas`;
* `src/stt_service/motor_stt_vosk.py` — the confidence
  aggregation of the engine (`_calcular_confianca_media`) and forced finalization
  (`finalizar_sessao`);
* `src/stt_service/gateway_comunicacao.py` — the WebSocket session
  handler `websocket_stt`: message emission order and the
  partial-message throttle;
* `src/stt_service/configuracao.py` — the configuration defaults the
  above read.

Modelling conventions:

* Python `float` values (confidences, latencies, wall-clock times) are
  modelled as exact rationals `ℚ`; counters as `ℕ`; HTTP status codes
  as `ℕ`.
* Python exceptions are modelled with an explicit exception type
  `ExcecaoPy`; a function that may raise returns `Except ExcecaoPy α`,
  and an exception-handler chain is an explicit match whose fall-through
  re-raises (propagates) the exception.
* The behaviour of the external HTTP call `requests.post` is a
  parameter (`ComportamentoHttp`): it either yields a response
  (status, body, measured latency) or raises.
* Python dict bodies are summarised as tagged strings
  (`CorpoResposta`); no claim inspects their contents beyond presence.
-/

namespace Ela

/-! ## Configuration (`src/stt_service/configuracao.py`)

Default values of `ConfiguracaoSTT` (environment overrides are out of
scope: the defaults are the documented configuration). -/

/-- `ConfiguracaoSTT.URL_SERVICO_GLOSSA` default. -/
def URL_SERVICO_GLOSSA : String := "http://localhost:9000/traduzir"

/-- `ConfiguracaoSTT.TIMEOUT_GLOSSA` default (seconds). -/
def TIMEOUT_GLOSSA : Nat := 10

/-- `ConfiguracaoSTT.INTERVALO_EMISSAO_PARCIAL` default (seconds),
from `float(os.getenv("STT_PARTIAL_INTERVAL", "0.5"))`. -/
def INTERVALO_EMISSAO_PARCIAL : ℚ := 1/2

/-! ## Python exceptions and rounding -/

/-- The exception classes that can arise inside
the `try` block of `OrquestradorEnvioGlossa.enviar_para_glossa`, as matched
by its handler chain (`except Timeout`, `except RequestException`,
`except Exception`).  `outraExcecao` stands for any other `Exception`
(also used for `ValueError` / `TypeError` raised by string
formatting). -/
inductive ExcecaoPy where
  | timeoutHttp
  | requestException (msg : String)
  | outraExcecao (msg : String)
deriving DecidableEq, Repr

/-- Python `round(x)`: nearest integer, ties to even (we model the
exact rational value; Python applies this to binary floats). -/
def pyRound (q : ℚ) : ℤ :=
  let f := ⌊q⌋
  let frac := q - f
  if frac < 1/2 then f
  else if 1/2 < frac then f + 1
  else if Even f then f else f + 1

/-- Python `round(x, 1)`. -/
def arredondar1 (q : ℚ) : ℚ := (pyRound (q * 10) : ℚ) / 10

/-! ## Dispatch orchestrator (`src/stt_service/orquestrador_envio.py`) -/

/-- Mutable per-session counters of `OrquestradorEnvioGlossa`
(`__init__`, lines 80–83). -/
structure OrquestradorState where
  total_envios : Nat
  envios_sucesso : Nat
  envios_falha : Nat
  latencia_total_ms : ℚ
deriving DecidableEq, Repr

/-- Counters right after `__init__`. -/
def estadoInicial : OrquestradorState :=
  { total_envios := 0, envios_sucesso := 0, envios_falha := 0,
    latencia_total_ms := 0 }

/-- Python `str.strip()`: removes whitespace from both ends.  We strip
the characters `Char.isWhitespace` recognises (space, tab, CR, LF);
Python also strips the rarer Unicode whitespace code points, which no
text in the claims uses. -/
def pyStrip (s : String) : String :=
  String.mk
    (((s.data.dropWhile Char.isWhitespace).reverse.dropWhile
      Char.isWhitespace).reverse)

/-- `OrquestradorEnvioGlossa.deve_enviar` (lines 90–128): the three
filters, in source order.  (`not texto or not texto.strip()` is
equivalent to `texto.strip() == ""`: an empty `texto` strips to the
empty string.) -/
def deve_enviar (texto : String) (confianca : Option ℚ) : Bool :=
  -- `if not texto or not texto.strip(): return False`
  if pyStrip texto = "" then false
  -- `if len(texto.strip()) < 3: return False`
  else if (pyStrip texto).length < 3 then false
  -- `if confianca is not None and confianca < 0.3: return False`
  else match confianca with
    | some c => if c < 3/10 then false else true
    | none => true

/-- Response bodies (Python dicts), summarised: `json` for a parsed
`response.json()`, `bruto` for the fallback `{"raw": response.text[:200]}`
on parse failure, `erroHttp` for `{"error": response.text[:200]}`. -/
inductive CorpoResposta where
  | json (corpo : String)
  | bruto (texto : String)
  | erroHttp (texto : String)
deriving DecidableEq, Repr

/-- `ResultadoDespachoGlossa` (`esquema_mensagens.py`, lines 166–197):
all optional fields default to `None`. -/
structure ResultadoDespachoGlossa where
  target_url : String
  request_sent : Bool
  response_status : Option Nat := none
  response_body : Option CorpoResposta := none
  duration_ms : Option ℚ := none
  error : Option String := none
deriving DecidableEq, Repr

/-- Behaviour of the external call `requests.post(...)` together with
the subsequent response handling inside the `try` block of
`enviar_para_glossa`: either a response is obtained (with its HTTP
status, body text, whether `response.json()` parses, and the measured
wall-clock latency in ms), or an exception is raised.  `latencia_ms`
on the exception cases is the elapsed wall-clock time
`(time.perf_counter() - inicio) * 1000` that the handler would
measure. -/
inductive ComportamentoHttp where
  | resposta (status : Nat) (corpo : String) (jsonOk : Bool) (latencia_ms : ℚ)
  | timeoutHttp (latencia_ms : ℚ)
  | falhaRede (msg : String) (latencia_ms : ℚ)
  | excecaoInesperada (msg : String)
deriving DecidableEq, Repr

/-- Error string of the `except Timeout` handler (line 258). -/
def msgTimeout : String :=
  "Timeout ao contatar serviço de glossa (>" ++ toString TIMEOUT_GLOSSA ++ "s)"

/-- Error string of the `except RequestException` handler (line 273). -/
def msgRede (m : String) : String :=
  "Erro de rede ao contatar serviço de glossa: " ++ m

/-- Error string of the `except Exception` handler (line 286). -/
def msgInesperado (m : String) : String :=
  "Erro inesperado ao enviar para glossa: " ++ m

/-- Error string of the filtered branch (line 169). -/
def msgFiltrado : String :=
  "Transcrição filtrada (texto muito curto ou confiança baixa)"

/-- Error string of the HTTP-error branch (lines 237–239). -/
def msgErroHttp (status : Nat) : String :=
  "Serviço de glossa retornou erro HTTP " ++ toString status

/-- The exception-handler chain of `enviar_para_glossa` (lines
254–293): `except Timeout`, then `except RequestException`, then
`except Exception`, in source order.  Returns `none` when no handler
matches (the exception would then propagate to the caller); since the
last handler catches every `Exception`, every `ExcecaoPy` is handled.
`duracao_ms` is the elapsed time measured inside the first two
handlers; the `except Exception` handler measures nothing and leaves
`duration_ms` at its default `None`. -/
def tratarExcecao (s : OrquestradorState) (e : ExcecaoPy) (duracao_ms : ℚ) :
    Option (OrquestradorState × ResultadoDespachoGlossa) :=
  match e with
  | ExcecaoPy.timeoutHttp =>
      some ({ s with envios_falha := s.envios_falha + 1 },
        { target_url := URL_SERVICO_GLOSSA, request_sent := true,
          response_status := none, duration_ms := some duracao_ms,
          error := some msgTimeout })
  | ExcecaoPy.requestException m =>
      some ({ s with envios_falha := s.envios_falha + 1 },
        { target_url := URL_SERVICO_GLOSSA, request_sent := false,
          duration_ms := some duracao_ms,
          error := some (msgRede m) })
  | ExcecaoPy.outraExcecao m =>
      some ({ s with envios_falha := s.envios_falha + 1 },
        { target_url := URL_SERVICO_GLOSSA, request_sent := false,
          error := some (msgInesperado m) })

/-- `OrquestradorEnvioGlossa.enviar_para_glossa` (lines 130–293).
Returns `Except`: a `.error` value models an exception propagating to
the caller (which never happens, see `C5_enviar_nunca_propaga`); the
`.ok` value carries the updated counters, the returned
`ResultadoDespachoGlossa`, and a flag recording whether the HTTP call
`requests.post` was executed at all (`false` exactly on the filtered
early-return branch, which performs no network I/O). -/
def enviar_para_glossa (s : OrquestradorState) (texto : String)
    (confianca : Option ℚ) (http : ComportamentoHttp) :
    Except ExcecaoPy (OrquestradorState × ResultadoDespachoGlossa × Bool) :=
  -- `self.total_envios += 1`
  let s1 : OrquestradorState := { s with total_envios := s.total_envios + 1 }
  -- `if not self.deve_enviar(texto, confianca): return ...`
  if deve_enviar texto confianca = false then
    Except.ok (s1,
      { target_url := URL_SERVICO_GLOSSA, request_sent := false,
        error := some msgFiltrado }, false)
  else
    match http with
    | ComportamentoHttp.resposta status corpo jsonOk lat =>
        -- `duracao_ms = ...; self.latencia_total_ms += duracao_ms`
        -- (before the status check, lines 206–207)
        let s2 : OrquestradorState :=
          { s1 with latencia_total_ms := s1.latencia_total_ms + lat }
        if 200 ≤ status ∧ status < 300 then
          -- success branch (lines 210–231)
          let s3 : OrquestradorState :=
            { s2 with envios_sucesso := s2.envios_sucesso + 1 }
          let body : CorpoResposta :=
            if jsonOk then CorpoResposta.json corpo
            else CorpoResposta.bruto (corpo.take 200)
          Except.ok (s3,
            { target_url := URL_SERVICO_GLOSSA, request_sent := true,
              response_status := some status, response_body := some body,
              duration_ms := some lat, error := none }, true)
        else
          -- HTTP error branch (lines 234–252)
          let s3 : OrquestradorState :=
            { s2 with envios_falha := s2.envios_falha + 1 }
          Except.ok (s3,
            { target_url := URL_SERVICO_GLOSSA, request_sent := true,
              response_status := some status,
              response_body := some (CorpoResposta.erroHttp (corpo.take 200)),
              duration_ms := some lat, error := some (msgErroHttp status) },
            true)
    | ComportamentoHttp.timeoutHttp lat =>
        match tratarExcecao s1 ExcecaoPy.timeoutHttp lat with
        | some (s', r) => Except.ok (s', r, true)
        | none => Except.error ExcecaoPy.timeoutHttp
    | ComportamentoHttp.falhaRede m lat =>
        match tratarExcecao s1 (ExcecaoPy.requestException m) lat with
        | some (s', r) => Except.ok (s', r, true)
        | none => Except.error (ExcecaoPy.requestException m)
    | ComportamentoHttp.excecaoInesperada m =>
        match tratarExcecao s1 (ExcecaoPy.outraExcecao m) 0 with
        | some (s', r) => Except.ok (s', r, true)
        | none => Except.error (ExcecaoPy.outraExcecao m)

/-- One dispatch call of a session: the arguments and the behaviour of
the downstream HTTP service on that call. -/
structure Chamada where
  texto : String
  confianca : Option ℚ
  http : ComportamentoHttp
deriving DecidableEq, Repr

/-- State transition of one dispatch call (an exception would abort
the session loop; `enviar_para_glossa` never raises, so the `.error`
branch below is unreachable). -/
def passoEnvio (s : OrquestradorState) (c : Chamada) : OrquestradorState :=
  match enviar_para_glossa s c.texto c.confianca c.http with
  | Except.ok (s', _, _) => s'
  | Except.error _ => s

/-- Running a sequence of dispatch calls through one orchestrator. -/
def executarEnvios (s : OrquestradorState) (cs : List Chamada) :
    OrquestradorState :=
  cs.foldl passoEnvio s

/-- A call that passes the `deve_enviar` filter. -/
def chamadaEfetiva (c : Chamada) : Bool := deve_enviar c.texto c.confianca

/-- A call that passes the filter and obtains an HTTP response (any
status). -/
def chamadaComResposta (c : Chamada) : Bool :=
  chamadaEfetiva c &&
    match c.http with
    | ComportamentoHttp.resposta _ _ _ _ => true
    | _ => false

/-- A call that passes the filter and obtains a 2xx response. -/
def chamadaSucesso (c : Chamada) : Bool :=
  chamadaEfetiva c &&
    match c.http with
    | ComportamentoHttp.resposta status _ _ _ =>
        decide (200 ≤ status) && decide (status < 300)
    | _ => false

/-- A call that passes the filter and fails (non-2xx response,
timeout, network failure, or unexpected exception). -/
def chamadaFalha (c : Chamada) : Bool := chamadaEfetiva c && !chamadaSucesso c

/-- The measured latency a call contributes to `latencia_total_ms`:
its response latency when an HTTP response is obtained, `0`
otherwise. -/
def latenciaAcumulada (c : Chamada) : ℚ :=
  if chamadaEfetiva c then
    match c.http with
    | ComportamentoHttp.resposta _ _ _ lat => lat
    | _ => 0
  else 0

/-- The latency of a call counted the way the specification describes
(successful calls only). -/
def latenciaSucessoSpec (c : Chamada) : ℚ :=
  if chamadaSucesso c then
    match c.http with
    | ComportamentoHttp.resposta _ _ _ lat => lat
    | _ => 0
  else 0

/-- A concrete two-call run: one successful call (HTTP 200, latency
10 ms) followed by one call that obtains an HTTP 500 error response
(latency 20 ms). -/
def execucaoC2 : List Chamada :=
  [ { texto := "ola mundo", confianca := none,
      http := ComportamentoHttp.resposta 200 "ok" true 10 },
    { texto := "ola mundo", confianca := none,
      http := ComportamentoHttp.resposta 500 "erro interno" true 20 } ]

/-- The record returned by `obter_estatisticas` (lines 295–319). -/
structure Estatisticas where
  total_envios : Nat
  envios_sucesso : Nat
  envios_falha : Nat
  taxa_sucesso_pct : ℚ
  latencia_media_ms : ℚ
deriving DecidableEq, Repr

/-- `OrquestradorEnvioGlossa.obter_estatisticas` (lines 295–319). -/
def obter_estatisticas (s : OrquestradorState) : Estatisticas :=
  { total_envios := s.total_envios,
    envios_sucesso := s.envios_sucesso,
    envios_falha := s.envios_falha,
    taxa_sucesso_pct :=
      arredondar1 (if 0 < s.total_envios then
        (s.envios_sucesso : ℚ) / (s.total_envios : ℚ) * 100
      else 0),
    latencia_media_ms :=
      arredondar1 (if 0 < s.envios_sucesso then
        s.latencia_total_ms / (s.envios_sucesso : ℚ)
      else 0) }

/-! ## STT engine (`src/stt_service/motor_stt_vosk.py`) -/

/-- A word-level entry of a Vosk result:
`{"word": ..., "start": ..., "end": ..., "conf": ...}`
(`end` is a Lean keyword, so that field is named `fim`). -/
structure Palavra where
  word : String
  start : ℚ
  fim : ℚ
  conf : ℚ
deriving DecidableEq, Repr

/-- A parsed Vosk final-result JSON: `{"text": ..., "result": [...]}`.
`resultado.get("result", [])` yields `[]` when the key is absent, so
an absent word list is modelled as the empty list. -/
structure ResultadoVosk where
  text : String
  result : List Palavra
deriving DecidableEq, Repr

/-- Loop body of `_calcular_confianca_media` (lines 259–267): a word
updates the running pair `(soma_confianca, soma_duracao)` exactly when
its duration is positive. -/
def acumularPalavra (acc : ℚ × ℚ) (p : Palavra) : ℚ × ℚ :=
  let duracao := p.fim - p.start
  if 0 < duracao then (acc.1 + p.conf * duracao, acc.2 + duracao) else acc

/-- `MotorSTTVosk._calcular_confianca_media` (lines 242–273). -/
def calcular_confianca_media (resultado : ResultadoVosk) : Option ℚ :=
  let palavras := resultado.result
  -- `if not palavras_detalhadas: return None`
  if palavras.isEmpty then none
  else
    let acc := palavras.foldl acumularPalavra (0, 0)
    -- `if soma_duracao > 0: return soma_confianca / soma_duracao`
    if 0 < acc.2 then some (acc.1 / acc.2)
    -- `return sum(p.get("conf", 0.0) for p in ...) / len(...)`
    else some ((palavras.map Palavra.conf).sum / (palavras.length : ℚ))

/-- Specification-side weighted sum `Σ conf·(end − start)` over the
entries with positive duration. -/
def somaPondSpec : List Palavra → ℚ
  | [] => 0
  | p :: ps =>
      (if 0 < p.fim - p.start then p.conf * (p.fim - p.start) else 0) +
        somaPondSpec ps

/-- Specification-side total weighted duration `Σ (end − start)` over
the entries with positive duration. -/
def duracaoTotalSpec : List Palavra → ℚ
  | [] => 0
  | p :: ps =>
      (if 0 < p.fim - p.start then p.fim - p.start else 0) +
        duracaoTotalSpec ps

/-- Validity of a Python float format spec, restricted to the shapes
this repository builds: the empty spec and `.<digits>f`.
`float.__format__` raises `ValueError` on a spec with trailing
characters after the type letter. -/
def especFormatoValida (spec : String) : Bool :=
  spec = "" ||
    (match spec.data with
     | [] => false
     | c :: resto => c = '.' && resto.dropWhile Char.isDigit = ['f'])

/-- Python `format(valor, spec)` for an optional float, as evaluated
inside an f-string: formatting a float with an invalid spec raises
`ValueError`; formatting `None` with any non-empty spec raises
`TypeError` (`NoneType.__format__` accepts only the empty spec).  The
rendered text of a valid format is irrelevant to every claim and is
summarised as `toString`. -/
def formatarValor (valor : Option ℚ) (spec : String) : Except ExcecaoPy String :=
  match valor with
  | some q =>
      if especFormatoValida spec then Except.ok (toString q)
      else Except.error
        (ExcecaoPy.outraExcecao "ValueError: Invalid format specifier")
  | none =>
      if spec = "" then Except.ok "None"
      else Except.error (ExcecaoPy.outraExcecao
        "TypeError: unsupported format string passed to NoneType.__format__")

/-- The format spec of the log f-string on line 236 of
`motor_stt_vosk.py`, which reads
`\x7bconfianca:.2f if confianca else \x27N/A\x27\x7d`: in a Python
f-string, everything between the first `:` and the closing brace is
the format spec, so the conditional expression the author intended is
passed verbatim to `format(...)` as an (invalid) spec string. -/
def especLogFinalizacao : String := ".2f if confianca else \x27N/A\x27"

/-- `MotorSTTVosk.finalizar_sessao` (lines 217–240), parameterised by
the flushed `FinalResult()` JSON of the recognizer.  When the stripped text
is non-empty, the method evaluates its log f-string before returning;
that evaluation formats `confianca` with `especLogFinalizacao` and the
resulting exception propagates. -/
def finalizar_sessao (resultadoFinal : ResultadoVosk) :
    Except ExcecaoPy (Option (String × Option ℚ)) :=
  let texto := pyStrip resultadoFinal.text
  let confianca := calcular_confianca_media resultadoFinal
  -- `if texto:`
  if texto = "" then Except.ok none
  else
    match formatarValor confianca especLogFinalizacao with
    | Except.error e => Except.error e
    | Except.ok _ => Except.ok (some (texto, confianca))

/-- The word entries of the aggregation example:
`(conf, start, end) = (0.9, 0.0, 0.5)` and `(0.5, 0.5, 1.0)`. -/
def palavrasExemplo : List Palavra :=
  [ { word := "ola", start := 0, fim := 1/2, conf := 9/10 },
    { word := "mundo", start := 1/2, fim := 1, conf := 1/2 } ]

/-- Flushed final result with pending non-empty text and word-level
detail. -/
def resultadoPendente : ResultadoVosk :=
  { text := "ola mundo", result := palavrasExemplo }

/-- Flushed final result with pending non-empty text but no word-level
detail (confidence unknown). -/
def resultadoPendenteSemPalavras : ResultadoVosk :=
  { text := "ola mundo", result := [] }

/-- Flushed final result with an empty buffer. -/
def resultadoVazio : ResultadoVosk := { text := "", result := [] }

/-! ## WebSocket gateway (`src/stt_service/gateway_comunicacao.py`) -/

/-- Protocol messages the session handler sends on the channel
(`esquema_mensagens.py`), reduced to the payload the claims inspect:
for a partial message, the emission time used by the throttle. -/
inductive Mensagem where
  | sessaoIniciada
  | parcial (texto : String) (tempo : ℚ)
  | final (texto : String)
  | erro (msg : String)
deriving DecidableEq, Repr

/-- One iteration of the receive loop: an empty frame (`continue`) or
a processed frame carrying the result of `processar_audio`:
`(is_final, texto, confianca)` and the wall-clock time `time.time()`
observed at the throttle check. -/
inductive EventoSessao where
  | frameVazio
  | frame (is_final : Bool) (texto : String) (confianca : Option ℚ) (agora : ℚ)
deriving DecidableEq, Repr

/-- How the session loop ends: a client disconnect
(`WebSocketDisconnect`) or a processing exception reaching the
`except Exception` handler, which then sends an error message. -/
inductive FimSessao where
  | desconexao
  | excecao (msg : String)
deriving DecidableEq, Repr

/-- A session script: whether engine / orchestrator construction
raises (and with which message), the frames the main loop processes,
and how the loop ends.  A construction failure raises before the
`session_started` send is reached and lands in the exception handler,
which emits an error message. -/
structure RoteiroSessao where
  falhaMotor : Option String
  falhaOrquestrador : Option String
  eventos : List EventoSessao
  fim : FimSessao
deriving DecidableEq, Repr

/-- Messages emitted by the main receive loop (`websocket_stt`, lines
268–314), threading the throttle state `ultima_emissao_parcial`.
Mirrors `if is_final and texto: ... elif not is_final and texto:`
with the throttle guard
`agora - ultima_emissao_parcial >= INTERVALO_EMISSAO_PARCIAL` and the
update `ultima_emissao_parcial = agora` on emission. -/
def mensagensLoop (intervalo : ℚ) :
    List EventoSessao → ℚ → List Mensagem
  | [], _ => []
  | EventoSessao.frameVazio :: resto, ultima =>
      mensagensLoop intervalo resto ultima
  | EventoSessao.frame isFinal texto _ agora :: resto, ultima =>
      if isFinal then
        if texto = "" then mensagensLoop intervalo resto ultima
        else Mensagem.final texto :: mensagensLoop intervalo resto ultima
      else
        if texto = "" then mensagensLoop intervalo resto ultima
        else if intervalo ≤ agora - ultima then
          Mensagem.parcial texto agora :: mensagensLoop intervalo resto agora
        else mensagensLoop intervalo resto ultima

/-- The messages one whole session execution sends (`websocket_stt`,
lines 247–359): engine construction, orchestrator construction, the
`session_started` send, the receive loop (with
`ultima_emissao_parcial = 0.0`), then the error message the exception
handler sends when the loop ended in an exception.  A construction
failure jumps straight to the handler, so only an error message is
sent.  The `finally` block emits no protocol message. -/
def mensagensSessao (r : RoteiroSessao) : List Mensagem :=
  match r.falhaMotor with
  | some m => [Mensagem.erro m]
  | none =>
    match r.falhaOrquestrador with
    | some m => [Mensagem.erro m]
    | none =>
        Mensagem.sessaoIniciada ::
          (mensagensLoop INTERVALO_EMISSAO_PARCIAL r.eventos 0 ++
            match r.fim with
            | FimSessao.desconexao => []
            | FimSessao.excecao m => [Mensagem.erro m])

/-- The times at which the partial messages of a message list were
emitted, in order. -/
def temposParciais (ms : List Mensagem) : List ℚ :=
  ms.filterMap fun m =>
    match m with
    | Mensagem.parcial _ t => some t
    | _ => none

/-- A frame event that must produce a `final` message. -/
def eventoFinalNaoVazio (e : EventoSessao) : Bool :=
  match e with
  | EventoSessao.frame isFinal texto _ _ => isFinal && texto != ""
  | _ => false

/-- Recogniser for `final` messages. -/
def eMensagemFinal (m : Mensagem) : Bool :=
  match m with
  | Mensagem.final _ => true
  | _ => false

/-- Recogniser for `session_started` messages. -/
def eSessaoIniciada (m : Mensagem) : Bool :=
  match m with
  | Mensagem.sessaoIniciada => true
  | _ => false

/-- Script in which `MotorSTTVosk(session_id)` raises (for instance
because the Vosk model fails to load). -/
def roteiroFalhaMotor : RoteiroSessao :=
  { falhaMotor := some "Falha ao carregar modelo Vosk",
    falhaOrquestrador := none,
    eventos := [],
    fim := FimSessao.desconexao }

/-- Script of an ordinary session: construction succeeds, one final
frame arrives, the client disconnects. -/
def roteiroNormal : RoteiroSessao :=
  { falhaMotor := none,
    falhaOrquestrador := none,
    eventos := [EventoSessao.frame true "ola mundo" none 1],
    fim := FimSessao.desconexao }

/-- Number of `final` messages in a message list. -/
def contagemFinais : List Mensagem → Nat
  | [] => 0
  | Mensagem.final _ :: ms => contagemFinais ms + 1
  | _ :: ms => contagemFinais ms

/-- Number of final frames with non-empty text in an event list. -/
def contagemFinaisEventos : List EventoSessao → Nat
  | [] => 0
  | EventoSessao.frame true texto _ _ :: es =>
      contagemFinaisEventos es + (if texto = "" then 0 else 1)
  | _ :: es => contagemFinaisEventos es

end Ela

/-- **C3.** `deve_enviar` returns `true` iff the trimmed text is
non-empty, the trimmed text has length at least 3, and the confidence
is either unknown or at least 0.3; for trimmed length below 3 it is
`false` regardless of confidence, and for unknown confidence only the
emptiness/length filters apply. -/
theorem C3_deve_enviar_iff (texto : String) (confianca : Option ℚ) :
    Ela.deve_enviar texto confianca = true ↔
      (Ela.pyStrip texto ≠ "" ∧ 3 ≤ (Ela.pyStrip texto).length ∧
        (∀ c : ℚ, confianca = some c → 3/10 ≤ c)) := by
  unfold Ela.deve_enviar
  rcases confianca with _ | c
  · constructor
    · intro h
      split_ifs at h with h1 h2
      exact ⟨h1, by omega, by intro c hc; cases hc⟩
    · rintro ⟨h1, h2, -⟩
      simp only [if_neg h1, if_neg (by omega : ¬ (Ela.pyStrip texto).length < 3)]
  · constructor
    · intro h
      split_ifs at h with h1 h2
      refine ⟨h1, by omega, ?_⟩
      rintro c' hc'
      injection hc' with hc'
      subst hc'
      by_contra hlt
      simp only [if_pos (by linarith : c < 3/10)] at h
      exact Bool.noConfusion h
    · rintro ⟨h1, h2, h3⟩
      simp only [if_neg h1, if_neg (by omega : ¬ (Ela.pyStrip texto).length < 3)]
      have := h3 c rfl
      simp only [if_neg (by linarith : ¬ c < (3:ℚ)/10)]

/-! ## Branch equations for `enviar_para_glossa` (shared helpers) -/

/-- Filtered branch: early return without touching the network. -/
theorem enviar_eq_filtrado (s : Ela.OrquestradorState) (texto : String)
    (confianca : Option ℚ) (http : Ela.ComportamentoHttp)
    (h : Ela.deve_enviar texto confianca = false) :
    Ela.enviar_para_glossa s texto confianca http =
      Except.ok ({ s with total_envios := s.total_envios + 1 },
        { target_url := Ela.URL_SERVICO_GLOSSA, request_sent := false,
          error := some Ela.msgFiltrado }, false) := by
  simp [Ela.enviar_para_glossa, h]

/-- Response branch, 2xx status. -/
theorem enviar_eq_resposta_sucesso (s : Ela.OrquestradorState) (texto : String)
    (confianca : Option ℚ) (status : Nat) (corpo : String) (jsonOk : Bool)
    (lat : ℚ) (h : Ela.deve_enviar texto confianca = true)
    (h2 : 200 ≤ status ∧ status < 300) :
    Ela.enviar_para_glossa s texto confianca
        (Ela.ComportamentoHttp.resposta status corpo jsonOk lat) =
      Except.ok ({ s with
          total_envios := s.total_envios + 1,
          envios_sucesso := s.envios_sucesso + 1,
          latencia_total_ms := s.latencia_total_ms + lat },
        { target_url := Ela.URL_SERVICO_GLOSSA, request_sent := true,
          response_status := some status,
          response_body := some (if jsonOk then Ela.CorpoResposta.json corpo
            else Ela.CorpoResposta.bruto (corpo.take 200)),
          duration_ms := some lat, error := none }, true) := by
  simp [Ela.enviar_para_glossa, h, h2]

/-- Response branch, non-2xx status. -/
theorem enviar_eq_resposta_erro (s : Ela.OrquestradorState) (texto : String)
    (confianca : Option ℚ) (status : Nat) (corpo : String) (jsonOk : Bool)
    (lat : ℚ) (h : Ela.deve_enviar texto confianca = true)
    (h2 : ¬ (200 ≤ status ∧ status < 300)) :
    Ela.enviar_para_glossa s texto confianca
        (Ela.ComportamentoHttp.resposta status corpo jsonOk lat) =
      Except.ok ({ s with
          total_envios := s.total_envios + 1,
          envios_falha := s.envios_falha + 1,
          latencia_total_ms := s.latencia_total_ms + lat },
        { target_url := Ela.URL_SERVICO_GLOSSA, request_sent := true,
          response_status := some status,
          response_body := some (Ela.CorpoResposta.erroHttp (corpo.take 200)),
          duration_ms := some lat, error := some (Ela.msgErroHttp status) },
        true) := by
  simp [Ela.enviar_para_glossa, h, h2]

/-- Timeout branch (`except Timeout` handler). -/
theorem enviar_eq_timeout (s : Ela.OrquestradorState) (texto : String)
    (confianca : Option ℚ) (lat : ℚ)
    (h : Ela.deve_enviar texto confianca = true) :
    Ela.enviar_para_glossa s texto confianca
        (Ela.ComportamentoHttp.timeoutHttp lat) =
      Except.ok ({ s with
          total_envios := s.total_envios + 1,
          envios_falha := s.envios_falha + 1 },
        { target_url := Ela.URL_SERVICO_GLOSSA, request_sent := true,
          response_status := none, duration_ms := some lat,
          error := some Ela.msgTimeout }, true) := by
  simp [Ela.enviar_para_glossa, Ela.tratarExcecao, h]

/-- Transport-failure branch (`except RequestException` handler). -/
theorem enviar_eq_falha_rede (s : Ela.OrquestradorState) (texto : String)
    (confianca : Option ℚ) (m : String) (lat : ℚ)
    (h : Ela.deve_enviar texto confianca = true) :
    Ela.enviar_para_glossa s texto confianca
        (Ela.ComportamentoHttp.falhaRede m lat) =
      Except.ok ({ s with
          total_envios := s.total_envios + 1,
          envios_falha := s.envios_falha + 1 },
        { target_url := Ela.URL_SERVICO_GLOSSA, request_sent := false,
          duration_ms := some lat, error := some (Ela.msgRede m) }, true) := by
  simp [Ela.enviar_para_glossa, Ela.tratarExcecao, h]

/-- Unexpected-exception branch (`except Exception` handler). -/
theorem enviar_eq_inesperada (s : Ela.OrquestradorState) (texto : String)
    (confianca : Option ℚ) (m : String)
    (h : Ela.deve_enviar texto confianca = true) :
    Ela.enviar_para_glossa s texto confianca
        (Ela.ComportamentoHttp.excecaoInesperada m) =
      Except.ok ({ s with
          total_envios := s.total_envios + 1,
          envios_falha := s.envios_falha + 1 },
        { target_url := Ela.URL_SERVICO_GLOSSA, request_sent := false,
          error := some (Ela.msgInesperado m) }, true) := by
  simp [Ela.enviar_para_glossa, Ela.tratarExcecao, h]

/-- **C5.** For every input text and confidence and every behaviour of
the downstream HTTP call (2xx response, non-2xx response, timeout,
transport failure, or unexpected internal exception),
`enviar_para_glossa` never propagates an exception to its caller: it
always returns (`Except.ok`) a `ResultadoDespachoGlossa`, and an
unexpected exception is caught and wrapped into the `error` field of the outcome. -/
theorem C5_enviar_nunca_propaga (s : Ela.OrquestradorState) (texto : String)
    (confianca : Option ℚ) (http : Ela.ComportamentoHttp) :
    (∃ v, Ela.enviar_para_glossa s texto confianca http = Except.ok v) ∧
    (∀ m, http = Ela.ComportamentoHttp.excecaoInesperada m →
      Ela.deve_enviar texto confianca = true →
      ∃ s' r, Ela.enviar_para_glossa s texto confianca http =
          Except.ok (s', r, true) ∧
        r.request_sent = false ∧ r.error = some (Ela.msgInesperado m)) := by
  constructor
  · by_cases h : Ela.deve_enviar texto confianca = true
    · cases http with
      | resposta status corpo jsonOk lat =>
          by_cases h2 : 200 ≤ status ∧ status < 300
          · exact ⟨_, enviar_eq_resposta_sucesso s texto confianca status corpo jsonOk lat h h2⟩
          · exact ⟨_, enviar_eq_resposta_erro s texto confianca status corpo jsonOk lat h h2⟩
      | timeoutHttp lat => exact ⟨_, enviar_eq_timeout s texto confianca lat h⟩
      | falhaRede m lat => exact ⟨_, enviar_eq_falha_rede s texto confianca m lat h⟩
      | excecaoInesperada m => exact ⟨_, enviar_eq_inesperada s texto confianca m h⟩
    · rw [Bool.not_eq_true] at h
      exact ⟨_, enviar_eq_filtrado s texto confianca http h⟩
  · rintro m rfl h
    rw [enviar_eq_inesperada s texto confianca m h]
    exact ⟨_, _, rfl, rfl, rfl⟩

/-- Witness for C5 at a concrete input. -/
theorem C5_testemunha :
    (∃ v, Ela.enviar_para_glossa Ela.estadoInicial "ola mundo" none
        (Ela.ComportamentoHttp.excecaoInesperada "falha interna") = Except.ok v) ∧
    (∃ s' r, Ela.enviar_para_glossa Ela.estadoInicial "ola mundo" none
        (Ela.ComportamentoHttp.excecaoInesperada "falha interna") =
          Except.ok (s', r, true) ∧
      r.request_sent = false ∧
      r.error = some (Ela.msgInesperado "falha interna")) := by
  have h := C5_enviar_nunca_propaga Ela.estadoInicial "ola mundo" none
    (Ela.ComportamentoHttp.excecaoInesperada "falha interna")
  exact ⟨h.1, h.2 "falha interna" rfl (by decide)⟩

/-- **C6.** For a dispatch call that passes the filter: on timeout the
outcome has `request_sent = true`, `response_status = none` and a
timeout error; on any other transport-level failure the outcome has
`request_sent = false` and a descriptive network error; in both cases
the failure counter is incremented. -/
theorem C6_timeout_e_falha_rede (s : Ela.OrquestradorState) (texto : String)
    (confianca : Option ℚ) (m : String) (lat : ℚ)
    (h : Ela.deve_enviar texto confianca = true) :
    (∃ s' r, Ela.enviar_para_glossa s texto confianca
        (Ela.ComportamentoHttp.timeoutHttp lat) = Except.ok (s', r, true) ∧
      r.request_sent = true ∧ r.response_status = none ∧
      r.error = some Ela.msgTimeout ∧ r.duration_ms = some lat ∧
      s'.envios_falha = s.envios_falha + 1) ∧
    (∃ s' r, Ela.enviar_para_glossa s texto confianca
        (Ela.ComportamentoHttp.falhaRede m lat) = Except.ok (s', r, true) ∧
      r.request_sent = false ∧ r.error = some (Ela.msgRede m) ∧
      s'.envios_falha = s.envios_falha + 1) := by
  constructor
  · rw [enviar_eq_timeout s texto confianca lat h]
    exact ⟨_, _, rfl, rfl, rfl, rfl, rfl, rfl⟩
  · rw [enviar_eq_falha_rede s texto confianca m lat h]
    exact ⟨_, _, rfl, rfl, rfl, rfl⟩

/-- Witness for C6 at a concrete input. -/
theorem C6_testemunha :
    (∃ s' r, Ela.enviar_para_glossa Ela.estadoInicial "ola mundo" none
        (Ela.ComportamentoHttp.timeoutHttp 5) = Except.ok (s', r, true) ∧
      r.request_sent = true ∧ r.response_status = none ∧
      r.error = some Ela.msgTimeout ∧ r.duration_ms = some 5 ∧
      s'.envios_falha = Ela.estadoInicial.envios_falha + 1) ∧
    (∃ s' r, Ela.enviar_para_glossa Ela.estadoInicial "ola mundo" none
        (Ela.ComportamentoHttp.falhaRede "conexao recusada" 5) =
          Except.ok (s', r, true) ∧
      r.request_sent = false ∧ r.error = some (Ela.msgRede "conexao recusada") ∧
      s'.envios_falha = Ela.estadoInicial.envios_falha + 1) :=
  C6_timeout_e_falha_rede Ela.estadoInicial "ola mundo" none "conexao recusada" 5
    (by decide)

/-- **C7.** For every call rejected by the `deve_enviar` filter,
`enviar_para_glossa` increments the attempt counter, performs no
network I/O (the flag recording execution of `requests.post` is
`false`, and the result does not depend on the HTTP behaviour), and
returns an outcome with `request_sent = false`, a non-null explanatory
error, and null `response_status`, `response_body` and `duration_ms`;
the success and failure counters are unchanged. -/
theorem C7_filtrado (s : Ela.OrquestradorState) (texto : String)
    (confianca : Option ℚ) (http : Ela.ComportamentoHttp)
    (h : Ela.deve_enviar texto confianca = false) :
    Ela.enviar_para_glossa s texto confianca http =
      Except.ok ({ s with total_envios := s.total_envios + 1 },
        { target_url := Ela.URL_SERVICO_GLOSSA, request_sent := false,
          response_status := none, response_body := none, duration_ms := none,
          error := some Ela.msgFiltrado }, false) ∧
    (∀ http', Ela.enviar_para_glossa s texto confianca http =
      Ela.enviar_para_glossa s texto confianca http') ∧
    ∃ s' r, Ela.enviar_para_glossa s texto confianca http =
        Except.ok (s', r, false) ∧
      s'.total_envios = s.total_envios + 1 ∧
      s'.envios_sucesso = s.envios_sucesso ∧
      s'.envios_falha = s.envios_falha ∧
      r.request_sent = false ∧ r.error = some Ela.msgFiltrado ∧
      r.response_status = none ∧ r.response_body = none ∧
      r.duration_ms = none := by
  refine ⟨enviar_eq_filtrado s texto confianca http h, ?_, ?_⟩
  · intro http'
    rw [enviar_eq_filtrado s texto confianca http h,
      enviar_eq_filtrado s texto confianca http' h]
  · rw [enviar_eq_filtrado s texto confianca http h]
    exact ⟨_, _, rfl, rfl, rfl, rfl, rfl, rfl, rfl, rfl, rfl⟩

/-- Witness for C7 at a concrete input (text whose trimmed length is
2, so the filter rejects it). -/
theorem C7_testemunha :
    Ela.enviar_para_glossa Ela.estadoInicial " ab " (some (9/10))
        (Ela.ComportamentoHttp.resposta 200 "ok" true 7) =
      Except.ok ({ Ela.estadoInicial with
          total_envios := Ela.estadoInicial.total_envios + 1 },
        { target_url := Ela.URL_SERVICO_GLOSSA, request_sent := false,
          response_status := none, response_body := none, duration_ms := none,
          error := some Ela.msgFiltrado }, false) :=
  (C7_filtrado Ela.estadoInicial " ab " (some (9/10))
    (Ela.ComportamentoHttp.resposta 200 "ok" true 7) (by decide)).1

/-! ## Counter and latency accounting over a run of dispatch calls -/

/-- A successful call passed the filter. -/
theorem sucesso_imp_efetiva (c : Ela.Chamada)
    (h : Ela.chamadaSucesso c = true) : Ela.chamadaEfetiva c = true := by
  unfold Ela.chamadaSucesso at h
  rw [Bool.and_eq_true] at h
  exact h.1

/-- Per call, success and failure increments partition the filtered-in
calls. -/
theorem sucesso_falha_split (c : Ela.Chamada) :
    (if Ela.chamadaSucesso c then (1:ℕ) else 0) +
        (if Ela.chamadaFalha c then (1:ℕ) else 0) =
      (if Ela.chamadaEfetiva c then (1:ℕ) else 0) := by
  cases he : Ela.chamadaEfetiva c
  · have hs : Ela.chamadaSucesso c = false := by
      cases hs : Ela.chamadaSucesso c
      · rfl
      · rw [sucesso_imp_efetiva c hs] at he
        exact Bool.noConfusion he
    simp [Ela.chamadaFalha, he, hs]
  · cases hs : Ela.chamadaSucesso c <;> simp [Ela.chamadaFalha, he, hs]

/-- Field-level characterisation of one dispatch step. -/
theorem passoEnvio_campos (s : Ela.OrquestradorState) (c : Ela.Chamada) :
    Ela.passoEnvio s c =
      { total_envios := s.total_envios + 1,
        envios_sucesso :=
          s.envios_sucesso + (if Ela.chamadaSucesso c then 1 else 0),
        envios_falha :=
          s.envios_falha + (if Ela.chamadaFalha c then 1 else 0),
        latencia_total_ms :=
          s.latencia_total_ms + Ela.latenciaAcumulada c } := by
  obtain ⟨texto, conf, http⟩ := c
  by_cases h : Ela.deve_enviar texto conf = true
  · cases http with
    | resposta status corpo jsonOk lat =>
        by_cases h2 : 200 ≤ status ∧ status < 300
        · rw [Ela.passoEnvio,
            enviar_eq_resposta_sucesso s texto conf status corpo jsonOk lat h h2]
          simp [Ela.chamadaSucesso, Ela.chamadaFalha, Ela.chamadaEfetiva,
            Ela.latenciaAcumulada, h, h2.1, h2.2]
        · rw [Ela.passoEnvio,
            enviar_eq_resposta_erro s texto conf status corpo jsonOk lat h h2]
          have hsuc : (decide (200 ≤ status) && decide (status < 300)) = false := by
            rcases Nat.lt_or_ge status 200 with hlt | hge
            · simp [Nat.not_le.mpr hlt]
            · have : ¬ status < 300 := fun hc => h2 ⟨hge, hc⟩
              simp [this]
          simp [Ela.chamadaSucesso, Ela.chamadaFalha, Ela.chamadaEfetiva,
            Ela.latenciaAcumulada, h, hsuc]
    | timeoutHttp lat =>
        rw [Ela.passoEnvio, enviar_eq_timeout s texto conf lat h]
        simp [Ela.chamadaSucesso, Ela.chamadaFalha, Ela.chamadaEfetiva,
          Ela.latenciaAcumulada, h]
    | falhaRede m lat =>
        rw [Ela.passoEnvio, enviar_eq_falha_rede s texto conf m lat h]
        simp [Ela.chamadaSucesso, Ela.chamadaFalha, Ela.chamadaEfetiva,
          Ela.latenciaAcumulada, h]
    | excecaoInesperada m =>
        rw [Ela.passoEnvio, enviar_eq_inesperada s texto conf m h]
        simp [Ela.chamadaSucesso, Ela.chamadaFalha, Ela.chamadaEfetiva,
          Ela.latenciaAcumulada, h]
  · rw [Bool.not_eq_true] at h
    rw [Ela.passoEnvio, enviar_eq_filtrado s texto conf http h]
    simp [Ela.chamadaSucesso, Ela.chamadaFalha, Ela.chamadaEfetiva,
      Ela.latenciaAcumulada, h]

/-- Field-level characterisation of a whole run of dispatch calls. -/
theorem executarEnvios_campos (cs : List Ela.Chamada)
    (s : Ela.OrquestradorState) :
    Ela.executarEnvios s cs =
      { total_envios := s.total_envios + cs.length,
        envios_sucesso :=
          s.envios_sucesso + cs.countP (fun c => Ela.chamadaSucesso c),
        envios_falha :=
          s.envios_falha + cs.countP (fun c => Ela.chamadaFalha c),
        latencia_total_ms :=
          s.latencia_total_ms + (cs.map Ela.latenciaAcumulada).sum } := by
  induction cs generalizing s with
  | nil => simp [Ela.executarEnvios]
  | cons c cs ih =>
      have hstep : Ela.executarEnvios s (c :: cs) =
          Ela.executarEnvios (Ela.passoEnvio s c) cs := rfl
      rw [hstep, ih, passoEnvio_campos]
      simp only [List.countP_cons, List.map_cons, List.sum_cons,
        List.length_cons, Ela.OrquestradorState.mk.injEq]
      exact ⟨by omega, by omega, by omega, by ring⟩

/-- Success and failure counts partition the filtered-in calls. -/
theorem countP_sucesso_falha (cs : List Ela.Chamada) :
    cs.countP (fun c => Ela.chamadaSucesso c) +
        cs.countP (fun c => Ela.chamadaFalha c) =
      cs.countP (fun c => Ela.chamadaEfetiva c) := by
  induction cs with
  | nil => rfl
  | cons c cs ih =>
      simp only [List.countP_cons]
      have := sucesso_falha_split c
      omega

/-- Filtered-in and filtered-out calls partition all calls. -/
theorem countP_efetiva_total (cs : List Ela.Chamada) :
    cs.countP (fun c => Ela.chamadaEfetiva c) +
        cs.countP (fun c => !Ela.chamadaEfetiva c) = cs.length := by
  induction cs with
  | nil => rfl
  | cons c cs ih =>
      cases he : Ela.chamadaEfetiva c <;>
        simp only [List.countP_cons, he, List.length_cons] <;> simp <;> omega

/-- Rounding fixes zero. -/
theorem arredondar1_zero : Ela.arredondar1 0 = 0 := by
  norm_num [Ela.arredondar1, Ela.pyRound]

/-- **C10.** Over every sequence of dispatch calls on one
orchestrator, `envios_sucesso + envios_falha ≤ total_envios`, the
difference being exactly the number of calls rejected by the
`deve_enviar` filter (which increment neither success nor failure);
and the success rate reported by `obter_estatisticas` uses all
attempts — filtered ones included — as its denominator. -/
theorem C10_invariante_contadores (cs : List Ela.Chamada) :
    (Ela.executarEnvios Ela.estadoInicial cs).envios_sucesso +
        (Ela.executarEnvios Ela.estadoInicial cs).envios_falha ≤
      (Ela.executarEnvios Ela.estadoInicial cs).total_envios ∧
    (Ela.executarEnvios Ela.estadoInicial cs).total_envios = cs.length ∧
    (Ela.executarEnvios Ela.estadoInicial cs).envios_sucesso +
        (Ela.executarEnvios Ela.estadoInicial cs).envios_falha =
      cs.countP (fun c => Ela.chamadaEfetiva c) ∧
    (Ela.executarEnvios Ela.estadoInicial cs).total_envios -
        ((Ela.executarEnvios Ela.estadoInicial cs).envios_sucesso +
          (Ela.executarEnvios Ela.estadoInicial cs).envios_falha) =
      cs.countP (fun c => !Ela.chamadaEfetiva c) ∧
    (Ela.obter_estatisticas (Ela.executarEnvios Ela.estadoInicial cs)).taxa_sucesso_pct =
      (if 0 < cs.length then
        Ela.arredondar1
          ((cs.countP (fun c => Ela.chamadaSucesso c) : ℚ) / (cs.length : ℚ) * 100)
      else 0) := by
  have hpart := countP_sucesso_falha cs
  have htot := countP_efetiva_total cs
  have hle : cs.countP (fun c => Ela.chamadaEfetiva c) ≤ cs.length :=
    List.countP_le_length _
  have hT : (Ela.executarEnvios Ela.estadoInicial cs).total_envios = cs.length := by
    rw [executarEnvios_campos]
    simp [Ela.estadoInicial]
  have hS : (Ela.executarEnvios Ela.estadoInicial cs).envios_sucesso =
      cs.countP (fun c => Ela.chamadaSucesso c) := by
    rw [executarEnvios_campos]
    simp [Ela.estadoInicial]
  have hF : (Ela.executarEnvios Ela.estadoInicial cs).envios_falha =
      cs.countP (fun c => Ela.chamadaFalha c) := by
    rw [executarEnvios_campos]
    simp [Ela.estadoInicial]
  refine ⟨by rw [hT, hS, hF]; omega, hT, by rw [hS, hF]; omega,
    by rw [hT, hS, hF]; omega, ?_⟩
  simp only [Ela.obter_estatisticas, hT, hS]
  rcases Nat.eq_zero_or_pos cs.length with hzero | hpos
  · simp [hzero, arredondar1_zero]
  · simp only [if_pos hpos]

/-- **C2 (amended).** The measured latency of a call is accumulated
into the running latency total whenever an HTTP response is obtained —
whether its status is 2xx or an error status — while timeouts,
transport failures and filtered calls accumulate nothing; the average
latency reported by `getStatistics` equals that accumulated total
divided by the number of successful calls (rounded to one decimal). -/
theorem C2_latencia_media_corrigida (cs : List Ela.Chamada) :
    (Ela.executarEnvios Ela.estadoInicial cs).latencia_total_ms =
      (cs.map Ela.latenciaAcumulada).sum ∧
    (Ela.executarEnvios Ela.estadoInicial cs).envios_sucesso =
      cs.countP (fun c => Ela.chamadaSucesso c) ∧
    (Ela.obter_estatisticas (Ela.executarEnvios Ela.estadoInicial cs)).latencia_media_ms =
      (if 0 < cs.countP (fun c => Ela.chamadaSucesso c) then
        Ela.arredondar1 ((cs.map Ela.latenciaAcumulada).sum /
          (cs.countP (fun c => Ela.chamadaSucesso c) : ℚ))
      else 0) := by
  have hL : (Ela.executarEnvios Ela.estadoInicial cs).latencia_total_ms =
      (cs.map Ela.latenciaAcumulada).sum := by
    rw [executarEnvios_campos]
    simp [Ela.estadoInicial]
  have hS : (Ela.executarEnvios Ela.estadoInicial cs).envios_sucesso =
      cs.countP (fun c => Ela.chamadaSucesso c) := by
    rw [executarEnvios_campos]
    simp [Ela.estadoInicial]
  refine ⟨hL, hS, ?_⟩
  simp only [Ela.obter_estatisticas, hL, hS]
  rcases Nat.eq_zero_or_pos (cs.countP fun c => Ela.chamadaSucesso c) with hzero | hpos
  · simp [hzero, arredondar1_zero]
  · simp only [if_pos hpos]

/-- `pyRound` fixes integers. -/
theorem pyRound_intCast (n : ℤ) : Ela.pyRound (n : ℚ) = n := by
  unfold Ela.pyRound
  norm_num

/-- `arredondar1` fixes integers. -/
theorem arredondar1_intCast (n : ℤ) : Ela.arredondar1 (n : ℚ) = (n : ℚ) := by
  unfold Ela.arredondar1
  have h : ((n : ℚ) * 10) = ((n * 10 : ℤ) : ℚ) := by push_cast; ring
  rw [h, pyRound_intCast]
  push_cast
  ring

/-- **C2 counterexample.** On the run `execucaoC2` — one successful
call of latency 10 ms and one HTTP-500 call of latency 20 ms — the
reported average latency is 30 ms, whereas the average over successful
attempts only, as the claim states it, is 10 ms: the code also
accumulates the latency of calls whose response has an error status
(`orquestrador_envio.py` adds to `latencia_total_ms` on line 207,
before the status check). -/
theorem C2_contraexemplo :
    (Ela.obter_estatisticas
        (Ela.executarEnvios Ela.estadoInicial Ela.execucaoC2)).latencia_media_ms
      = 30 ∧
    ((Ela.execucaoC2.map Ela.latenciaSucessoSpec).sum /
      (Ela.execucaoC2.countP (fun c => Ela.chamadaSucesso c) : ℚ)) = 10 ∧
    (30 : ℚ) ≠ 10 := by
  have hdeve : Ela.deve_enviar "ola mundo" none = true := by decide
  have hc1 : Ela.chamadaSucesso
      { texto := "ola mundo", confianca := none,
        http := Ela.ComportamentoHttp.resposta 200 "ok" true 10 } = true := by
    simp [Ela.chamadaSucesso, Ela.chamadaEfetiva, hdeve]
  have hc2 : Ela.chamadaSucesso
      { texto := "ola mundo", confianca := none,
        http := Ela.ComportamentoHttp.resposta 500 "erro interno" true 20 } = false := by
    simp [Ela.chamadaSucesso, Ela.chamadaEfetiva, hdeve]
  have hcount : Ela.execucaoC2.countP (fun c => Ela.chamadaSucesso c) = 1 := by
    simp [Ela.execucaoC2, List.countP_cons, hc1, hc2]
  have harred : Ela.arredondar1 (30 : ℚ) = 30 := by
    have h := arredondar1_intCast 30
    norm_num at h
    exact h
  have hst : Ela.executarEnvios Ela.estadoInicial Ela.execucaoC2 =
      { total_envios := 2, envios_sucesso := 1, envios_falha := 1,
        latencia_total_ms := 30 } := by
    rw [executarEnvios_campos]
    have hf1 : Ela.chamadaFalha
        { texto := "ola mundo", confianca := none,
          http := Ela.ComportamentoHttp.resposta 200 "ok" true 10 } = false := by
      simp [Ela.chamadaFalha, hc1]
    have hf2 : Ela.chamadaFalha
        { texto := "ola mundo", confianca := none,
          http := Ela.ComportamentoHttp.resposta 500 "erro interno" true 20 } = true := by
      simp [Ela.chamadaFalha, hc2, Ela.chamadaEfetiva, hdeve]
    simp only [Ela.estadoInicial, Ela.execucaoC2, List.countP_cons,
      List.countP_nil, List.map_cons, List.map_nil, List.sum_cons,
      List.sum_nil, List.length_cons, List.length_nil, hc1, hc2, hf1, hf2,
      Ela.OrquestradorState.mk.injEq]
    refine ⟨by norm_num, by norm_num, by norm_num, ?_⟩
    simp [Ela.latenciaAcumulada, Ela.chamadaEfetiva, hdeve]
    norm_num
  refine ⟨?_, ?_, by norm_num⟩
  · rw [hst]
    simp only [Ela.obter_estatisticas]
    norm_num
    exact harred
  · rw [hcount]
    simp only [Ela.execucaoC2, List.map_cons, List.map_nil, List.sum_cons,
      List.sum_nil]
    simp [Ela.latenciaSucessoSpec, hc1, hc2]

/-! ## Confidence aggregation and forced finalization -/

/-- The accumulation loop computes the specification-side sums. -/
theorem foldl_acumularPalavra (ps : List Ela.Palavra) (a b : ℚ) :
    ps.foldl Ela.acumularPalavra (a, b) =
      (a + Ela.somaPondSpec ps, b + Ela.duracaoTotalSpec ps) := by
  induction ps generalizing a b with
  | nil => simp [Ela.somaPondSpec, Ela.duracaoTotalSpec]
  | cons p ps ih =>
      simp only [List.foldl_cons, Ela.acumularPalavra, Ela.somaPondSpec,
        Ela.duracaoTotalSpec]
      by_cases h : 0 < p.fim - p.start
      · simp only [if_pos h]
        rw [ih]
        simp only [Prod.mk.injEq]
        constructor <;> ring
      · simp only [if_neg h]
        rw [ih]
        simp only [Prod.mk.injEq]
        constructor <;> ring

/-- The weighted total duration is zero when no entry has positive
duration. -/
theorem duracaoTotalSpec_zero (ps : List Ela.Palavra)
    (h : ∀ p ∈ ps, p.fim - p.start ≤ 0) : Ela.duracaoTotalSpec ps = 0 := by
  induction ps with
  | nil => rfl
  | cons p ps ih =>
      have hp := h p (List.mem_cons_self p ps)
      simp only [Ela.duracaoTotalSpec, if_neg (not_lt.mpr hp)]
      rw [ih fun q hq => h q (List.mem_cons_of_mem p hq)]
      ring

/-- A positive weighted duration needs at least one entry. -/
theorem duracaoTotalSpec_pos_ne_nil (ps : List Ela.Palavra)
    (h : 0 < Ela.duracaoTotalSpec ps) : ps ≠ [] := by
  intro hnil
  rw [hnil] at h
  simp [Ela.duracaoTotalSpec] at h

/-- Concrete evaluation of the aggregation example. -/
theorem calcular_confianca_exemplo :
    Ela.calcular_confianca_media Ela.resultadoPendente = some (7/10) := by
  unfold Ela.calcular_confianca_media Ela.resultadoPendente Ela.palavrasExemplo
  simp only [List.isEmpty_cons, List.foldl_cons, List.foldl_nil,
    Ela.acumularPalavra]
  norm_num

/-- **C4.** `_calcular_confianca_media` returns `none` when the
word-entry list is absent/empty; the duration-weighted mean
`Σ conf·(end − start) / Σ (end − start)` over the entries with
positive duration when the total weighted duration is positive; the
unweighted arithmetic mean of all per-word confidences when every
entry has non-positive duration; and `0.7` on the entries
`[(0.9, 0.0, 0.5), (0.5, 0.5, 1.0)]`. -/
theorem C4_confianca_media (r : Ela.ResultadoVosk) :
    (r.result = [] → Ela.calcular_confianca_media r = none) ∧
    (0 < Ela.duracaoTotalSpec r.result →
      Ela.calcular_confianca_media r =
        some (Ela.somaPondSpec r.result / Ela.duracaoTotalSpec r.result)) ∧
    (r.result ≠ [] → (∀ p ∈ r.result, p.fim - p.start ≤ 0) →
      Ela.calcular_confianca_media r =
        some ((r.result.map Ela.Palavra.conf).sum / (r.result.length : ℚ))) ∧
    Ela.calcular_confianca_media Ela.resultadoPendente = some (7/10) := by
  refine ⟨?_, ?_, ?_, calcular_confianca_exemplo⟩
  · intro h
    simp [Ela.calcular_confianca_media, h]
  · intro h
    have hne := duracaoTotalSpec_pos_ne_nil r.result h
    have hne' : r.result.isEmpty = false := by
      cases hr : r.result
      · exact absurd hr hne
      · rfl
    simp only [Ela.calcular_confianca_media, foldl_acumularPalavra, zero_add,
      hne']
    rw [if_neg Bool.false_ne_true, if_pos h]
  · intro hne hnp
    have hzero := duracaoTotalSpec_zero r.result hnp
    have hne' : r.result.isEmpty = false := by
      cases hr : r.result
      · exact absurd hr hne
      · rfl
    simp only [Ela.calcular_confianca_media, foldl_acumularPalavra, zero_add,
      hne', hzero]
    rw [if_neg Bool.false_ne_true, if_neg (lt_irrefl (0 : ℚ))]

/-- Witness for C4 at concrete inputs: the empty list, the example
entries (total weighted duration 1), and a single zero-duration entry
(fallback to the plain mean). -/
theorem C4_testemunha :
    Ela.calcular_confianca_media { text := "", result := [] } = none ∧
    Ela.calcular_confianca_media Ela.resultadoPendente =
      some (Ela.somaPondSpec Ela.palavrasExemplo /
        Ela.duracaoTotalSpec Ela.palavrasExemplo) ∧
    Ela.calcular_confianca_media
        { text := "oi",
          result := [{ word := "oi", start := 1, fim := 1, conf := 4/5 }] } =
      some ((([{ word := "oi", start := 1, fim := 1, conf := 4/5 }] :
          List Ela.Palavra).map Ela.Palavra.conf).sum /
        (([{ word := "oi", start := 1, fim := 1, conf := 4/5 }] :
          List Ela.Palavra).length : ℚ)) := by
  refine ⟨(C4_confianca_media { text := "", result := [] }).1 rfl, ?_, ?_⟩
  · exact (C4_confianca_media Ela.resultadoPendente).2.1
      (by norm_num [Ela.resultadoPendente, Ela.palavrasExemplo,
        Ela.duracaoTotalSpec])
  · exact (C4_confianca_media _).2.2.1 (by simp)
      (by intro p hp; simp at hp; subst hp; norm_num)

/-- **C1 (code bug).** `finalizar_sessao` is supposed to return the
pair `(texto, confianca)` when the flushed stripped text is non-empty
and `None` when it is empty, without raising; but whenever the text is
non-empty the log f-string on line 236 of `motor_stt_vosk.py` formats
`confianca` with the invalid spec `.2f if confianca else ...`, raising
`ValueError` (known confidence) or `TypeError` (unknown confidence)
instead of returning.  Only the empty-buffer case returns normally. -/
theorem C1_finalizar_sessao_quebra :
    Ela.finalizar_sessao Ela.resultadoPendente =
      Except.error
        (Ela.ExcecaoPy.outraExcecao "ValueError: Invalid format specifier") ∧
    Ela.finalizar_sessao Ela.resultadoPendenteSemPalavras =
      Except.error (Ela.ExcecaoPy.outraExcecao
        "TypeError: unsupported format string passed to NoneType.__format__") ∧
    Ela.finalizar_sessao Ela.resultadoVazio = Except.ok none := by
  refine ⟨?_, rfl, rfl⟩
  unfold Ela.finalizar_sessao
  rw [calcular_confianca_exemplo]
  rfl

/-! ## Session message order and the partial-message throttle -/

/-- `eSessaoIniciada` on each non-`session_started` constructor. -/
theorem eSessaoIniciada_parcial (t : String) (q : ℚ) :
    Ela.eSessaoIniciada (Ela.Mensagem.parcial t q) = false := rfl

/-- `eSessaoIniciada` rejects `final` messages. -/
theorem eSessaoIniciada_final (t : String) :
    Ela.eSessaoIniciada (Ela.Mensagem.final t) = false := rfl

/-- `eMensagemFinal` rejects partial messages. -/
theorem eMensagemFinal_parcial (t : String) (q : ℚ) :
    Ela.eMensagemFinal (Ela.Mensagem.parcial t q) = false := rfl

/-- `eMensagemFinal` accepts `final` messages. -/
theorem eMensagemFinal_final (t : String) :
    Ela.eMensagemFinal (Ela.Mensagem.final t) = true := rfl

/-- The receive loop never emits a `session_started` message. -/
theorem mensagensLoop_sem_inicio (intervalo : ℚ)
    (evs : List Ela.EventoSessao) (ultima : ℚ) :
    (Ela.mensagensLoop intervalo evs ultima).countP
      (fun m => Ela.eSessaoIniciada m) = 0 := by
  induction evs generalizing ultima with
  | nil => rfl
  | cons e resto ih =>
      cases e with
      | frameVazio =>
          simpa only [Ela.mensagensLoop] using ih ultima
      | frame isFinal texto conf agora =>
          simp only [Ela.mensagensLoop]
          split_ifs <;>
            simp only [List.countP_cons, eSessaoIniciada_parcial,
              eSessaoIniciada_final, Bool.false_eq_true, if_false,
              Nat.add_zero, ih]

/-- **C8 counterexample.** In the execution where the engine
constructor raises (the claim explicitly covers executions where
engine or orchestrator construction fails), the session sends an
`error` message and no `session_started` at all — so neither is
exactly one `session_started` sent, nor does one precede the error
message. -/
theorem C8_contraexemplo :
    Ela.mensagensSessao Ela.roteiroFalhaMotor =
      [Ela.Mensagem.erro "Falha ao carregar modelo Vosk"] ∧
    (Ela.mensagensSessao Ela.roteiroFalhaMotor).countP
      (fun m => Ela.eSessaoIniciada m) = 0 := ⟨rfl, rfl⟩

/-- **C8 (amended).** In every session execution in which engine and
orchestrator construction succeed, exactly one `session_started`
message is sent and it precedes every partial, final and error message
of the session; when construction fails, an error message may be sent
without any preceding `session_started`. -/
theorem C8_sessao_iniciada_unica_e_primeira (r : Ela.RoteiroSessao)
    (hm : r.falhaMotor = none) (ho : r.falhaOrquestrador = none) :
    ∃ resto, Ela.mensagensSessao r = Ela.Mensagem.sessaoIniciada :: resto ∧
      resto.countP (fun m => Ela.eSessaoIniciada m) = 0 := by
  refine ⟨Ela.mensagensLoop Ela.INTERVALO_EMISSAO_PARCIAL r.eventos 0 ++
    (match r.fim with
     | Ela.FimSessao.desconexao => []
     | Ela.FimSessao.excecao m => [Ela.Mensagem.erro m]), ?_, ?_⟩
  · unfold Ela.mensagensSessao
    rw [hm, ho]
  · rw [List.countP_append, mensagensLoop_sem_inicio]
    cases r.fim <;> rfl

/-- Witness for C8 at a concrete script (ordinary session: one final
frame, then a disconnect). -/
theorem C8_testemunha :
    ∃ resto, Ela.mensagensSessao Ela.roteiroNormal =
        Ela.Mensagem.sessaoIniciada :: resto ∧
      resto.countP (fun m => Ela.eSessaoIniciada m) = 0 :=
  C8_sessao_iniciada_unica_e_primeira Ela.roteiroNormal rfl rfl

/-- The throttle invariant, threaded through the loop: prefixing the
current `ultima_emissao_parcial` value, consecutive partial-emission
times are at least `intervalo` apart. -/
theorem temposParciais_chain (intervalo : ℚ)
    (evs : List Ela.EventoSessao) (ultima : ℚ) :
    List.Chain' (fun a b => a + intervalo ≤ b)
      (ultima ::
        Ela.temposParciais (Ela.mensagensLoop intervalo evs ultima)) := by
  induction evs generalizing ultima with
  | nil => simp [Ela.mensagensLoop, Ela.temposParciais]
  | cons e resto ih =>
      cases e with
      | frameVazio =>
          simpa only [Ela.mensagensLoop] using ih ultima
      | frame isFinal texto conf agora =>
          simp only [Ela.mensagensLoop]
          by_cases hf : isFinal
          · simp only [if_pos hf]
            by_cases ht : texto = ""
            · simpa only [if_pos ht] using ih ultima
            · simp only [if_neg ht, Ela.temposParciais, List.filterMap_cons]
              simpa only [Ela.temposParciais] using ih ultima
          · simp only [if_neg hf]
            by_cases ht : texto = ""
            · simpa only [if_pos ht] using ih ultima
            · simp only [if_neg ht]
              by_cases hthr : intervalo ≤ agora - ultima
              · simp only [if_pos hthr, Ela.temposParciais, List.filterMap_cons]
                refine List.chain'_cons.mpr ⟨by linarith, ?_⟩
                simpa only [Ela.temposParciais] using ih agora
              · simpa only [if_neg hthr] using ih ultima

/-- The receive loop emits one `final` message per final frame with
non-empty text, throttle state notwithstanding. -/
theorem mensagensLoop_contagem_finais (intervalo : ℚ)
    (evs : List Ela.EventoSessao) (ultima : ℚ) :
    Ela.contagemFinais (Ela.mensagensLoop intervalo evs ultima) =
      Ela.contagemFinaisEventos evs := by
  induction evs generalizing ultima with
  | nil => rfl
  | cons e resto ih =>
      cases e with
      | frameVazio =>
          simpa only [Ela.mensagensLoop, Ela.contagemFinaisEventos]
            using ih ultima
      | frame isFinal texto conf agora =>
          by_cases hf : isFinal = true
          · subst hf
            simp only [Ela.mensagensLoop, if_pos rfl,
              Ela.contagemFinaisEventos]
            by_cases ht : texto = ""
            · simp only [if_pos ht, ite_self, ih, Nat.add_zero]
            · simp only [if_neg ht, Ela.contagemFinais, ih]
          · rw [Bool.not_eq_true] at hf
            subst hf
            simp only [Ela.mensagensLoop, Bool.false_eq_true, if_false,
              Ela.contagemFinaisEventos]
            by_cases ht : texto = ""
            · simp only [if_pos ht, ih]
            · by_cases hthr : intervalo ≤ agora - ultima
              · simp only [if_neg ht, if_pos hthr, Ela.contagemFinais, ih]
              · simp only [if_neg ht, if_neg hthr, ih]

/-- **C9.** The gateway emits a partial message only if at least the
configured minimum interval has elapsed since the last partial
emission of the session (the throttle starts from
`ultima_emissao_parcial = 0.0`), so consecutive partial-emission times
are at least `intervalo` apart — at most one partial message per
throttle window; final messages are never suppressed by the throttle
(one `final` message per final frame with non-empty text); and the
configured default interval is 0.5 s. -/
theorem C9_throttle_parciais (intervalo : ℚ)
    (evs : List Ela.EventoSessao) :
    List.Chain' (fun a b => a + intervalo ≤ b)
      (Ela.temposParciais (Ela.mensagensLoop intervalo evs 0)) ∧
    Ela.contagemFinais (Ela.mensagensLoop intervalo evs 0) =
      Ela.contagemFinaisEventos evs ∧
    Ela.INTERVALO_EMISSAO_PARCIAL = 1/2 :=
  ⟨(temposParciais_chain intervalo evs 0).tail,
   mensagensLoop_contagem_finais intervalo evs 0, rfl⟩
